import Mathlib

/-!
Shallow embedding of `src/pybind/mgr/dashboard/controllers/orchestrator.py`
(ceph dashboard orchestrator controller) and proofs of the specification's
claims about it.

The file models:
* `get_device_osd_map` (lines 23-54): building the hostname → device →
  owning-OSD-ids map from the raw `osd_metadata` feed;
* the inventory merge loop inside `OrchestratorInventory.list`
  (lines 111-119), called `merge_into_inventory` by the specification;
* `raise_if_no_orchestrator` (lines 61-68) and the endpoints it guards;
* `Orchestrator.identify_device` (lines 92-100) as a trace of effects;
* the try/except of `OrchestratorOsd.create` (lines 137-140).

Python dicts are modelled as association lists in insertion order (a new
key is appended at the end, updating a key keeps its position), matching
CPython's guaranteed dict iteration order.  Machine-level details that no
claim depends on are noted at the definition they concern.
-/

namespace CephDashOrch

/-! ### The device identification loop (`Orchestrator.identify_device`) -/

/-- One observable effect of `identify_device`: a progress update to the
task tracker, switching the device light on or off, or a one second
`time.sleep(1)` pause. -/
inductive Effect where
  | setProgress (n : ℤ)
  | lightOn
  | lightOff
  | sleep1
deriving DecidableEq, Repr

/-- Rounding of the fraction `num / den` (for `den > 0`) to the nearest
integer, ties to even — the semantics of Python's `round`.  The source
computes `round(i / float(duration) * 100)` in IEEE doubles; we model the
computation on the exact rational `num / den`.  (For the values any claim
exercises the quotient is far from a representability boundary and from a
tie, so the double computation agrees with the exact one.) -/
def pyRoundFrac (num den : ℤ) : ℤ :=
  let q := num / den
  let r := num % den
  if 2 * r < den then q
  else if den < 2 * r then q + 1
  else if q % 2 = 0 then q else q + 1

/-- Line 96, `int(round(i / float(duration) * 100))`.  `round` already
yields an integral value, so the outer `int(...)` truncation is the
identity on it. -/
def percentage (i : ℕ) (duration : ℤ) : ℤ :=
  pyRoundFrac (100 * (i : ℤ)) duration

/-- Trace of effects of `Orchestrator.identify_device` (lines 92-100):
`set_progress(0)`; light on; for `i in range(int(duration))` a progress
update to `percentage i duration` followed by `time.sleep(1)`; light off;
`set_progress(100)`.  `duration` is the already-truncated `int(duration)`;
Python's `range(n)` is empty for `n ≤ 0`, which `Int.toNat` mirrors. -/
def identify_device (duration : ℤ) : List Effect :=
  [Effect.setProgress 0, Effect.lightOn]
    ++ (List.range duration.toNat).flatMap
        (fun i => [Effect.setProgress (percentage i duration), Effect.sleep1])
    ++ [Effect.lightOff, Effect.setProgress 100]

/-- Recognizer for progress-update effects, used to count them. -/
def isProgress : Effect → Bool
  | Effect.setProgress _ => true
  | _ => false

/-- Recognizer for the one-second pauses. -/
def isSleep : Effect → Bool
  | Effect.sleep1 => true
  | _ => false

/-! ### Building the ownership map (`get_device_osd_map`, lines 23-54) -/

/-- One record of the `mgr.get('osd_metadata')` feed: the `hostname` and
`devices` fields, each possibly absent (`dict.get` returns `None`). -/
structure OsdMetadata where
  hostname : Option String
  devices : Option String
deriving DecidableEq, Repr

/-- The raw feed: OSD-id keys (strings in the source feed) paired with
their metadata records, in dict iteration (= insertion) order. -/
abbrev OsdMetadataFeed := List (String × OsdMetadata)

/-- Inner dict of the ownership map: device name → list of OSD ids. -/
abbrev DeviceOsds := List (String × List ℤ)

/-- The ownership map: hostname → device name → list of OSD ids. -/
abbrev OwnershipMap := List (String × DeviceOsds)

/-- Python truthiness test used by `if not hostname or not devices`
(line 44) on the result of `dict.get`: `None` and the empty string are
falsy. -/
def falsyStr : Option String → Bool
  | none => true
  | some s => s = ""

/-- Helper for `splitOnChar`: walk the characters, cutting at each
occurrence of the separator `c`; `acc` holds the current (reversed)
chunk. -/
def splitCharAux (c : Char) : List Char → List Char → List (List Char)
  | [], acc => [acc.reverse]
  | x :: xs, acc =>
    if x = c then acc.reverse :: splitCharAux c xs []
    else splitCharAux c xs (x :: acc)

/-- Python's `s.split(c)` for a one-character separator, as used by
`devices.split(',')` on line 49: cut at every occurrence of `c`, keeping
empty chunks, with `[""]` for the empty string.  (Defined structurally
over the character list so that concrete instances evaluate.) -/
def splitOnChar (s : String) (c : Char) : List String :=
  (splitCharAux c s.data []).map (fun l => String.mk l)

/-- Helper for `pyParseInt`: fold decimal digits into a number; `none`
until at least one digit has been read, `none` for any non-digit. -/
def parseDigits : List Char → Option ℕ → Option ℕ
  | [], acc => acc
  | c :: cs, acc =>
    if c.isDigit then
      parseDigits cs (some ((acc.getD 0) * 10 + (c.toNat - Char.toNat '0')))
    else none

/-- Python's `int(s)` (line 51) on the plain decimal strings OSD ids are:
an optional sign followed by one or more digits, `none` (a raised
`ValueError`) otherwise.  Python additionally strips surrounding
whitespace and allows underscore digit separators; no claim exercises
either. -/
def pyParseInt (s : String) : Option ℤ :=
  match s.data with
  | '-' :: rest => (parseDigits rest none).map (fun n => -(n : ℤ))
  | '+' :: rest => (parseDigits rest none).map (fun n => (n : ℤ))
  | ds => (parseDigits ds none).map (fun n => (n : ℤ))

/-- Association-list lookup, first match wins — `dict[k]` / `dict.get(k)`. -/
def alookup {β : Type} : List (String × β) → String → Option β
  | [], _ => none
  | (k, v) :: rest, key => if k = key then some v else alookup rest key

/-- Lines 50-53: `if device not in result[hostname]: result[hostname][device]
= [int(osd_id)] else: result[hostname][device].append(int(osd_id))` —
append the id to the existing entry for `device` (keeping its position),
or add a new entry at the end (dict insertion order). -/
def addDevice : DeviceOsds → String → ℤ → DeviceOsds
  | [], device, osd_id => [(device, [osd_id])]
  | (k, v) :: rest, device, osd_id =>
    if k = device then (k, v ++ [osd_id]) :: rest
    else (k, v) :: addDevice rest device osd_id

/-- The inner loop of lines 49-53: fold `addDevice` over the device
tokens of one record. -/
def addDevices (dm : DeviceOsds) (tokens : List String) (osd_id : ℤ) : DeviceOsds :=
  tokens.foldl (fun dm t => addDevice dm t osd_id) dm

/-- Lines 46-53 for one non-skipped record: ensure `result[hostname]`
exists (creating it at the end of the dict on first use, line 47), then
run the device loop on it. -/
def addRecordDevices : OwnershipMap → String → List String → ℤ → OwnershipMap
  | [], hostname, tokens, osd_id => [(hostname, addDevices [] tokens osd_id)]
  | (k, dm) :: rest, hostname, tokens, osd_id =>
    if k = hostname then (k, addDevices dm tokens osd_id) :: rest
    else (k, dm) :: addRecordDevices rest hostname tokens osd_id

/-- Processing of a single `(osd_id, osd_metadata)` item of the feed,
lines 42-53.  A record whose `hostname` or `devices` is falsy is skipped
(`continue`, line 45) before `int(osd_id)` is ever evaluated, so such a
record can never raise.  For a kept record `int(osd_id)` (line 51) is
evaluated; a malformed id raises `ValueError`, modelled as `Except.error`.
(The parse sits inside the device loop in the source, but `split(',')`
always yields at least one token, so hoisting it is observationally
equal.) -/
def addRecord (result : OwnershipMap) (osd_id : String) (md : OsdMetadata) :
    Except String OwnershipMap :=
  if falsyStr md.hostname || falsyStr md.devices then Except.ok result
  else
    match pyParseInt osd_id with
    | none => Except.error osd_id
    | some n =>
      Except.ok (addRecordDevices result (md.hostname.getD "")
        (splitOnChar (md.devices.getD "") ',') n)

/-- Lines 23-54, `get_device_osd_map`: fold the feed through
`addRecord`, starting from the empty dict (line 40). -/
def get_device_osd_map (feed : OsdMetadataFeed) : Except String OwnershipMap :=
  feed.foldlM (fun result p => addRecord result p.1 p.2) []

/-- The list of OSD ids the built map holds at `(hostname, device)`:
`result[hostname][device]`, with `[]` when either key is absent
(a lookup on the empty inner dict returns nothing). -/
def mapAt (m : OwnershipMap) (h d : String) : List ℤ :=
  (alookup ((alookup m h).getD []) d).getD []

/-! ### The inventory merge (`OrchestratorInventory.list`, lines 111-119) -/

/-- One device record of an inventory node's `to_json()` output: its
`path` field, its `osd_ids` field (absent until the merge writes it), and
the remaining JSON fields, which the merge never touches, kept abstract. -/
structure InvDevice where
  path : String
  osd_ids : Option (List ℤ)
  extra : List (String × String)
deriving DecidableEq, Repr

/-- One inventory node: its `name` (the hostname), its `devices` list and
its remaining JSON fields, kept abstract. -/
structure InvNode where
  name : String
  devices : List InvDevice
  extra : List (String × String)
deriving DecidableEq, Repr

/-- Python's `sorted` on a list of ints: the ascending rearrangement
(insertion sort; any stable sort produces the same list of ints). -/
def sortedInts (l : List ℤ) : List ℤ :=
  List.insertionSort (fun a b => a ≤ b) l

/-- Lines 113-118 for one device: with `node_osds =
device_osd_map.get(node['name'])`, the test `if node_osds:` is Python
truthiness — `None` (hostname absent) and the empty dict are both falsy
and yield `osd_ids = []`; otherwise `osd_ids =
sorted(node_osds.get(device['path'], []))`. -/
def annotateDevice (node_osds : Option DeviceOsds) (d : InvDevice) : InvDevice :=
  match node_osds with
  | none => { d with osd_ids := some [] }
  | some dm =>
    if dm.isEmpty then { d with osd_ids := some [] }
    else { d with osd_ids := some (sortedInts ((alookup dm d.path).getD [])) }

/-- The merge loop of `OrchestratorInventory.list` (lines 112-118), the
specification's `merge_into_inventory`: annotate every device of every
node with its `osd_ids`.  The source mutates the device dicts in place;
the functional map over the same records is the standard embedding. -/
def merge_into_inventory (nodes : List InvNode) (m : OwnershipMap) : List InvNode :=
  nodes.map (fun node =>
    { node with devices := node.devices.map (annotateDevice (alookup m node.name)) })

/-! ### The orchestrator-availability guard (`raise_if_no_orchestrator`) -/

/-- Outcome of a guarded request handler: an HTTP error raised by the
framework, or the wrapped handler's result. -/
inductive GuardResult (α : Type) where
  | httpError (status : ℕ)
  | ok (a : α)
deriving DecidableEq, Repr

/-- Lines 61-68, `raise_if_no_orchestrator`: the wrapper first asks the
orchestrator client whether it is available; if not it raises
`cherrypy.HTTPError(503)` and the wrapped method is never entered,
otherwise it invokes the method. -/
def raise_if_no_orchestrator {α : Type} (available : Bool) (method : Unit → α) :
    GuardResult α :=
  if available then GuardResult.ok (method ()) else GuardResult.httpError 503

/-- The endpoint `Orchestrator.identify_device` with its guard (lines 81,
92-100). -/
def guarded_identify_device (available : Bool) (duration : ℤ) :
    GuardResult (List Effect) :=
  raise_if_no_orchestrator available (fun _ => identify_device duration)

/-- The endpoint `OrchestratorInventory.list` with its guard (lines
106-119): fetch the
inventory nodes (modelled as the input `nodes`), build the ownership map
from the metadata feed and merge it in. -/
def inventory_list (available : Bool) (nodes : List InvNode)
    (feed : OsdMetadataFeed) : GuardResult (Except String (List InvNode)) :=
  raise_if_no_orchestrator available
    (fun _ => (get_device_osd_map feed).map (fun m => merge_into_inventory nodes m))

/-- The endpoint `OrchestratorService.list` with its guard (lines
125-128): map
`to_json` over the services the orchestrator returns (both abstract). -/
def service_list {σ τ : Type} (available : Bool) (services : List σ)
    (to_json : σ → τ) : GuardResult (List τ) :=
  raise_if_no_orchestrator available (fun _ => services.map to_json)

/-! ### OSD creation (`OrchestratorOsd.create`, lines 134-140) -/

/-- The Python exceptions the `create` handler distinguishes: the three
caught kinds (line 139), the `DashboardException` it raises in their place
(line 140, carrying the wrapped error and a component tag), and any other
exception, which propagates untouched. -/
inductive PyExc where
  | valueError (msg : String)
  | typeError (msg : String)
  | driveGroupValidationError (msg : String)
  | dashboardException (wrapped : PyExc) (component : String)
  | otherExc (msg : String)
deriving DecidableEq, Repr

/-- Whether the `except (ValueError, TypeError,
DriveGroupValidationError)` clause of line 139 catches the exception. -/
def isCaughtByCreate : PyExc → Bool
  | PyExc.valueError _ => true
  | PyExc.typeError _ => true
  | PyExc.driveGroupValidationError _ => true
  | _ => false

/-- The try/except body of `OrchestratorOsd.create` (lines 137-140).
`body` is the outcome of `orch.osds.create(DriveGroupSpec.from_json(
drive_group))` — either success or the exception the parse or the create
raised.  A caught exception is re-raised as
`DashboardException(e, component='osd')`; anything else propagates. -/
def osd_create (body : Except PyExc Unit) : Except PyExc Unit :=
  match body with
  | Except.ok u => Except.ok u
  | Except.error e =>
    if isCaughtByCreate e then Except.error (PyExc.dashboardException e "osd")
    else Except.error e

/-- The endpoint `OrchestratorOsd.create` with its guard (lines
134-140). -/
def guarded_osd_create (available : Bool) (body : Except PyExc Unit) :
    GuardResult (Except PyExc Unit) :=
  raise_if_no_orchestrator available (fun _ => osd_create body)

/-! ### Spec-side description of the ownership map

The specification (section 4.1) describes the list at `map[hostname][device]`
as holding, in feed insertion order, one copy of each record's
integer-parsed OSD id per occurrence of the device among the record's
comma-split tokens.  The following definitions state that description; the
characterization theorems compare them with `get_device_osd_map`. -/

/-- Modelled from the spec: what one feed record contributes to the list
at `(h, d)` — nothing for a record with falsy `hostname` or `devices` or a
different hostname, else one copy of the record's integer-parsed id per
occurrence of `d` among the comma-split device tokens (no trimming, no
deduplication of tokens). -/
def recordContribution (osd_id : String) (md : OsdMetadata) (h d : String) : List ℤ :=
  if falsyStr md.hostname || falsyStr md.devices then []
  else if md.hostname.getD "" = h then
    ((splitOnChar (md.devices.getD "") ',').filter (fun t => decide (t = d))).map
      (fun _ => (pyParseInt osd_id).getD 0)
  else []

/-- Modelled from the spec: the OSD ids owning device `d` on host `h`,
"in the order they were encountered (insertion order of the source
feed)". -/
def ownedIds (feed : OsdMetadataFeed) (h d : String) : List ℤ :=
  feed.flatMap (fun p => recordContribution p.1 p.2 h d)

/-- The feed holds a record whose metadata recorded device `p` under
hostname `h` and whose key parses to the OSD id `a`. -/
def recordsDevice (feed : OsdMetadataFeed) (h p : String) (a : ℤ) : Prop :=
  ∃ q ∈ feed, falsyStr q.2.hostname = false ∧ falsyStr q.2.devices = false ∧
    q.2.hostname = some h ∧ p ∈ splitOnChar (q.2.devices.getD "") ',' ∧
    pyParseInt q.1 = some a

end CephDashOrch

namespace CephDashOrch

/-! ### Lemmas about the map-building primitives -/

theorem exbind_ok {α β : Type} (a : α) (g : α → Except String β) :
    (Except.ok a >>= g) = g a :=
  rfl

theorem exbind_error {α β : Type} (s : String) (g : α → Except String β) :
    ((Except.error s : Except String α) >>= g) = Except.error s :=
  rfl

theorem alookup_addDevice (dm : DeviceOsds) (t : String) (osd_id : ℤ) (d : String) :
    (alookup (addDevice dm t osd_id) d).getD [] =
      (alookup dm d).getD [] ++ (if t = d then [osd_id] else []) := by
  induction dm with
  | nil =>
    by_cases h : t = d <;> simp [addDevice, alookup, h]
  | cons p rest ih =>
    obtain ⟨k, v⟩ := p
    by_cases hkt : k = t
    · subst hkt
      by_cases hkd : k = d <;> simp [addDevice, alookup, hkd]
    · by_cases hkd : k = d
      · have htd : ¬t = d := fun h2 => hkt (hkd.trans h2.symm)
        have hdt : ¬d = t := fun h2 => hkt (hkd.trans h2)
        simp [addDevice, alookup, hkt, hkd, htd, hdt]
      · simp [addDevice, alookup, hkt, hkd, ih]

theorem alookup_addDevices (toks : List String) (dm : DeviceOsds) (osd_id : ℤ)
    (d : String) :
    (alookup (addDevices dm toks osd_id) d).getD [] =
      (alookup dm d).getD [] ++
        (toks.filter (fun t => decide (t = d))).map (fun _ => osd_id) := by
  induction toks generalizing dm with
  | nil => simp [addDevices]
  | cons t rest ih =>
    have hstep : addDevices dm (t :: rest) osd_id =
        addDevices (addDevice dm t osd_id) rest osd_id := rfl
    rw [hstep, ih, alookup_addDevice, List.filter_cons]
    by_cases h : t = d <;> simp [h]

theorem alookup_addRecordDevices (m : OwnershipMap) (hostname : String)
    (toks : List String) (osd_id : ℤ) (h : String) :
    alookup (addRecordDevices m hostname toks osd_id) h =
      if hostname = h then
        some (addDevices ((alookup m hostname).getD []) toks osd_id)
      else alookup m h := by
  induction m with
  | nil =>
    by_cases hh : hostname = h <;> simp [addRecordDevices, alookup, hh]
  | cons p rest ih =>
    obtain ⟨k, dm⟩ := p
    by_cases hk : k = hostname
    · subst hk
      by_cases hh : k = h <;> simp [addRecordDevices, alookup, hh]
    · by_cases hh : k = h
      · subst hh
        have hne : ¬hostname = k := fun h => hk h.symm
        simp [addRecordDevices, alookup, hk, hne]
      · simp [addRecordDevices, alookup, hk, hh, ih]

theorem mapAt_addRecordDevices (m : OwnershipMap) (hostname : String)
    (toks : List String) (osd_id : ℤ) (h d : String) :
    mapAt (addRecordDevices m hostname toks osd_id) h d =
      mapAt m h d ++
        (if hostname = h then
          (toks.filter (fun t => decide (t = d))).map (fun _ => osd_id)
         else []) := by
  unfold mapAt
  rw [alookup_addRecordDevices]
  by_cases hh : hostname = h
  · subst hh
    rw [if_pos rfl, if_pos rfl, Option.getD_some, alookup_addDevices]
  · simp [hh]

theorem mapAt_foldlM (feed : OsdMetadataFeed) (m0 m : OwnershipMap)
    (hok : feed.foldlM (fun result p => addRecord result p.1 p.2) m0 = Except.ok m)
    (h d : String) :
    mapAt m h d = mapAt m0 h d ++ ownedIds feed h d := by
  induction feed generalizing m0 with
  | nil =>
    rw [List.foldlM_nil] at hok
    cases hok
    simp [ownedIds]
  | cons q rest ih =>
    rw [List.foldlM_cons] at hok
    cases heq : addRecord m0 q.1 q.2 with
    | error s =>
      rw [heq, exbind_error] at hok
      cases hok
    | ok m1 =>
      rw [heq, exbind_ok] at hok
      have hstep : mapAt m1 h d = mapAt m0 h d ++ recordContribution q.1 q.2 h d := by
        unfold addRecord at heq
        by_cases hskip : (falsyStr q.2.hostname || falsyStr q.2.devices) = true
        · rw [if_pos hskip] at heq
          cases heq
          simp [recordContribution, hskip]
        · rw [if_neg hskip] at heq
          cases hint : pyParseInt q.1 with
          | none =>
            rw [hint] at heq
            cases heq
          | some n =>
            rw [hint] at heq
            cases heq
            rw [mapAt_addRecordDevices]
            simp [recordContribution, hskip, hint]
      rw [ih m1 hok, hstep]
      simp [ownedIds, List.flatMap_cons, List.append_assoc]

/-- Characterization of the built map: at every `(hostname, device)` pair
it holds exactly the ids the spec describes, in feed insertion order. -/
theorem mapAt_get_device_osd_map (feed : OsdMetadataFeed) (m : OwnershipMap)
    (hok : get_device_osd_map feed = Except.ok m) (h d : String) :
    mapAt m h d = ownedIds feed h d := by
  have hfold := mapAt_foldlM feed [] m hok h d
  simpa [mapAt, alookup] using hfold

theorem pyParseInt_isSome_of_foldlM_ok (feed : OsdMetadataFeed) (m0 m : OwnershipMap)
    (hok : feed.foldlM (fun result p => addRecord result p.1 p.2) m0 = Except.ok m) :
    ∀ q ∈ feed, (falsyStr q.2.hostname || falsyStr q.2.devices) = false →
      ∃ n : ℤ, pyParseInt q.1 = some n := by
  induction feed generalizing m0 with
  | nil => intro q hq; cases hq
  | cons p rest ih =>
    rw [List.foldlM_cons] at hok
    cases heq : addRecord m0 p.1 p.2 with
    | error s =>
      rw [heq, exbind_error] at hok
      cases hok
    | ok m1 =>
      rw [heq, exbind_ok] at hok
      intro q hq hfal
      rcases List.mem_cons.mp hq with hq1 | hq2
      · subst hq1
        unfold addRecord at heq
        rw [if_neg (by simp [hfal])] at heq
        cases hint : pyParseInt q.1 with
        | none => rw [hint] at heq; cases heq
        | some n => exact ⟨n, rfl⟩
      · exact ih m1 hok q hq2 hfal

theorem hostname_some_of_not_falsy (o : Option String) (h : falsyStr o = false) :
    o = some (o.getD "") := by
  cases o with
  | none => simp [falsyStr] at h
  | some s => rfl

/-- Membership in the spec-side list coincides with the existence of a
feed record recording the device under the hostname with that id. -/
theorem mem_ownedIds (feed : OsdMetadataFeed) (m : OwnershipMap)
    (hok : get_device_osd_map feed = Except.ok m) (h p : String) (a : ℤ) :
    a ∈ ownedIds feed h p ↔ recordsDevice feed h p a := by
  have hparse := pyParseInt_isSome_of_foldlM_ok feed [] m hok
  unfold ownedIds recordsDevice
  rw [List.mem_flatMap]
  constructor
  · rintro ⟨q, hq, hmem⟩
    unfold recordContribution at hmem
    by_cases hskip : (falsyStr q.2.hostname || falsyStr q.2.devices) = true
    · rw [if_pos hskip] at hmem
      cases hmem
    · rw [if_neg hskip] at hmem
      have hfal : (falsyStr q.2.hostname || falsyStr q.2.devices) = false := by
        simpa using hskip
      obtain ⟨hfh, hfd⟩ := Bool.or_eq_false_iff.mp hfal
      by_cases hh : q.2.hostname.getD "" = h
      · rw [if_pos hh] at hmem
        rw [List.mem_map] at hmem
        obtain ⟨t, ht, ha⟩ := hmem
        obtain ⟨htl, htd⟩ := List.mem_filter.mp ht
        have htp : t = p := of_decide_eq_true htd
        obtain ⟨n, hn⟩ := hparse q hq hfal
        refine ⟨q, hq, hfh, hfd, ?_, ?_, ?_⟩
        · rw [hostname_some_of_not_falsy q.2.hostname hfh, hh]
        · rw [← htp]; exact htl
        · rw [hn]
          rw [hn] at ha
          simpa using ha
      · rw [if_neg hh] at hmem
        cases hmem
  · rintro ⟨q, hq, hfh, hfd, hhost, hp, hint⟩
    refine ⟨q, hq, ?_⟩
    unfold recordContribution
    rw [if_neg (by simp [hfh, hfd])]
    have hh : q.2.hostname.getD "" = h := by rw [hhost]; rfl
    rw [if_pos hh, List.mem_map]
    refine ⟨p, List.mem_filter.mpr ⟨hp, by simp⟩, by rw [hint]; rfl⟩

/-! ### Lemmas about `sorted` and the merge -/

theorem sortedInts_sorted (l : List ℤ) : (sortedInts l).Sorted (· ≤ ·) :=
  List.sorted_insertionSort (fun a b => a ≤ b) l

theorem mem_sortedInts (l : List ℤ) (a : ℤ) : a ∈ sortedInts l ↔ a ∈ l :=
  (List.perm_insertionSort (fun a b => a ≤ b) l).mem_iff

/-- What the merge writes into one device: its `osd_ids` become the sorted
ids the map holds at `(hostname, path)`, and nothing else changes. -/
theorem annotateDevice_fields (m : OwnershipMap) (nname : String) (d : InvDevice) :
    (annotateDevice (alookup m nname) d).osd_ids =
        some (sortedInts (mapAt m nname d.path)) ∧
      (annotateDevice (alookup m nname) d).path = d.path ∧
      (annotateDevice (alookup m nname) d).extra = d.extra := by
  unfold annotateDevice mapAt
  cases alookup m nname with
  | none => simp [alookup, sortedInts]
  | some dm =>
    by_cases he : dm.isEmpty
    · have hnil : dm = [] := List.isEmpty_iff.mp he
      subst hnil
      simp [alookup, sortedInts]
    · simp [he]

end CephDashOrch

namespace CephDashOrch

/-! ### Order lemmas for the amended sortedness claim -/

theorem filter_eq_singleton_of_nodup (l : List String) (d : String) (h : l.Nodup) :
    l.filter (fun t => decide (t = d)) = [] ∨
      l.filter (fun t => decide (t = d)) = [d] := by
  induction l with
  | nil => exact Or.inl rfl
  | cons t rest ih =>
    rw [List.nodup_cons] at h
    obtain ⟨hnotin, hrest⟩ := h
    rw [List.filter_cons]
    by_cases htd : t = d
    · subst htd
      have hnil : rest.filter (fun x => decide (x = t)) = [] :=
        List.filter_eq_nil_iff.mpr (fun a ha hat => hnotin ((of_decide_eq_true hat) ▸ ha))
      simp [hnil]
    · simp only [decide_eq_true_eq, htd, if_false]
      exact ih hrest

/-- With duplicate-free device tokens in every record, the spec-side list
at `(h, d)` picks at most one id per record, in feed order: it is a
sublist of the feed's parsed keys. -/
theorem ownedIds_sublist_keys (feed : OsdMetadataFeed) (h d : String)
    (htoks : ∀ q ∈ feed, (splitOnChar (q.2.devices.getD "") ',').Nodup) :
    (ownedIds feed h d).Sublist (feed.map (fun p => (pyParseInt p.1).getD 0)) := by
  induction feed with
  | nil => exact List.Sublist.refl _
  | cons q rest ih =>
    have ihrest := ih (fun r hr => htoks r (List.mem_cons.mpr (Or.inr hr)))
    have hq := htoks q (List.mem_cons.mpr (Or.inl rfl))
    rw [ownedIds, List.flatMap_cons, List.map_cons]
    have hcontr : recordContribution q.1 q.2 h d = [] ∨
        recordContribution q.1 q.2 h d = [(pyParseInt q.1).getD 0] := by
      unfold recordContribution
      by_cases hskip : (falsyStr q.2.hostname || falsyStr q.2.devices) = true
      · rw [if_pos hskip]; exact Or.inl rfl
      · rw [if_neg hskip]
        by_cases hh : q.2.hostname.getD "" = h
        · rw [if_pos hh]
          rcases filter_eq_singleton_of_nodup (splitOnChar (q.2.devices.getD "") ',') d hq with
            hnil | hone
          · rw [hnil]; exact Or.inl rfl
          · rw [hone]; exact Or.inr rfl
        · rw [if_neg hh]; exact Or.inl rfl
    rcases hcontr with hnil | hone
    · rw [hnil, List.nil_append]
      exact ihrest.cons _
    · rw [hone, List.singleton_append]
      exact ihrest.cons₂ _

/-! ## The claims -/

/-- C1 counterexample: called with duration 3, `identify_device` issues
five progress updates, not four — the update to 0 on line 93 precedes the
light-on call and is followed by the loop's own update to 0 — and the
light-off command (line 99) precedes the final 100% update (line 100),
not the other way round. -/
theorem identify_device_duration3_cex :
    ((identify_device 3).filter isProgress).length ≠ 4 ∧
      (identify_device 3).drop 8 = [Effect.lightOff, Effect.setProgress 100] := by
  constructor
  · decide
  · decide

/-- C1 (amended): called with duration 3, `identify_device` issues a
progress update to 0, then light-on, then three progress updates with
values round(0/3*100)=0, round(1/3*100)=33, round(2/3*100)=67, each
followed by a one-second pause, then the light-off command followed by the
final 100% progress update — exactly 5 progress updates and 3 one-second
pauses, with light-off and the 100% update in that order at the end. -/
theorem identify_device_duration3_trace :
    identify_device 3 =
        [Effect.setProgress 0, Effect.lightOn,
         Effect.setProgress 0, Effect.sleep1,
         Effect.setProgress 33, Effect.sleep1,
         Effect.setProgress 67, Effect.sleep1,
         Effect.lightOff, Effect.setProgress 100] ∧
      ((identify_device 3).filter isProgress).length = 5 ∧
      ((identify_device 3).filter isSleep).length = 3 := by
  refine ⟨?_, ?_, ?_⟩ <;> decide

/-- C10: when the requested duration truncates to 0 the loop body of
lines 95-98 — and with it the division `i / float(duration)` of line 96 —
is never executed: the trace is exactly progress 0, light-on, light-off,
progress 100, with no pause and no loop progress update. -/
theorem identify_device_duration0_trace :
    identify_device 0 =
        [Effect.setProgress 0, Effect.lightOn,
         Effect.lightOff, Effect.setProgress 100] ∧
      ((identify_device 0).filter isSleep).length = 0 := by
  refine ⟨?_, ?_⟩ <;> decide

/-- C7: when the availability check reports unavailable, each of the four
guarded endpoints fails with HTTP 503 and the wrapped handler body is
never entered — the result is `httpError 503` for every possible handler
input, so no orchestrator method beyond the availability check is
reached. -/
theorem unavailable_orchestrator_yields_503 {σ τ : Type} :
    ∀ (duration : ℤ) (nodes : List InvNode) (feed : OsdMetadataFeed)
      (services : List σ) (to_json : σ → τ) (body : Except PyExc Unit),
      guarded_identify_device false duration = GuardResult.httpError 503 ∧
        inventory_list false nodes feed = GuardResult.httpError 503 ∧
        service_list false services to_json = GuardResult.httpError 503 ∧
        guarded_osd_create false body = GuardResult.httpError 503 := by
  intro duration nodes feed services to_json body
  exact ⟨rfl, rfl, rfl, rfl⟩

/-- C8: a `ValueError`, `TypeError` or `DriveGroupValidationError` raised
while parsing or applying the drive-group specification is re-raised by
`OrchestratorOsd.create` as a `DashboardException` wrapping the original
error and tagged with component `osd`; nothing else is done with it. -/
theorem osd_create_wraps_validation_errors (e : PyExc)
    (h : isCaughtByCreate e = true) :
    osd_create (Except.error e) =
      Except.error (PyExc.dashboardException e "osd") := by
  simp [osd_create, h]

/-- Witness for C8 at a concrete `ValueError`. -/
theorem osd_create_wraps_validation_errors_witness :
    isCaughtByCreate (PyExc.valueError "bad drive group") = true ∧
      osd_create (Except.error (PyExc.valueError "bad drive group")) =
        Except.error
          (PyExc.dashboardException (PyExc.valueError "bad drive group") "osd") :=
  ⟨rfl, osd_create_wraps_validation_errors (PyExc.valueError "bad drive group") rfl⟩

/-- C4: a feed record whose `hostname` or `devices` field is missing or
empty contributes nothing to the map `get_device_osd_map` builds and
raises nothing: deleting it from the feed leaves the result — value and
success alike — unchanged. -/
theorem skipped_record_contributes_nothing (l1 l2 : OsdMetadataFeed)
    (k : String) (md : OsdMetadata)
    (hbad : (falsyStr md.hostname || falsyStr md.devices) = true) :
    get_device_osd_map (l1 ++ (k, md) :: l2) = get_device_osd_map (l1 ++ l2) := by
  unfold get_device_osd_map
  rw [List.foldlM_append, List.foldlM_append]
  apply bind_congr
  intro b
  rw [List.foldlM_cons]
  have hskip : addRecord b k md = Except.ok b := by
    unfold addRecord
    rw [if_pos hbad]
  rw [hskip, exbind_ok]

/-- Witness for C4: a record with a missing `hostname` and one with an
empty `devices` string both vanish from the ownership map without
raising. -/
theorem skipped_record_contributes_nothing_witness :
    (falsyStr (some "node9" : Option String) ||
        falsyStr (none : Option String)) = true ∧
      get_device_osd_map
          [("0", ⟨some "node1", some "nvme0n1,vdc"⟩),
           ("7", ⟨some "node9", none⟩),
           ("1", ⟨some "node1", some "vdb"⟩)] =
        get_device_osd_map
          [("0", ⟨some "node1", some "nvme0n1,vdc"⟩),
           ("1", ⟨some "node1", some "vdb"⟩)] :=
  ⟨rfl,
    skipped_record_contributes_nothing
      [("0", ⟨some "node1", some "nvme0n1,vdc"⟩)]
      [("1", ⟨some "node1", some "vdb"⟩)]
      "7" ⟨some "node9", none⟩ rfl⟩

/-- C5: for kept records `get_device_osd_map` splits `devices` on commas
without trimming or deduplicating tokens and appends the integer-parsed
OSD id to `map[hostname][device]`, so each `(hostname, device)` list holds
the ids in feed insertion order (first conjunct, via the spec-side
`ownedIds`); the spec's example feed yields exactly the ownership map the
spec displays (second conjunct); whitespace is kept (third) and repeated
tokens of one record are both appended (fourth). -/
theorem device_osd_map_insertion_order :
    (∀ (feed : OsdMetadataFeed) (m : OwnershipMap) (h d : String),
        get_device_osd_map feed = Except.ok m → mapAt m h d = ownedIds feed h d) ∧
      get_device_osd_map
          [("0", ⟨some "node1", some "nvme0n1,vdc"⟩),
           ("1", ⟨some "node1", some "vdb"⟩),
           ("2", ⟨some "node2", some "vdc"⟩)] =
        Except.ok
          [("node1", [("nvme0n1", [0]), ("vdc", [0]), ("vdb", [1])]),
           ("node2", [("vdc", [2])])] ∧
      get_device_osd_map [("0", ⟨some "node1", some " vdc,vdc"⟩)] =
        Except.ok [("node1", [(" vdc", [0]), ("vdc", [0])])] ∧
      get_device_osd_map [("1", ⟨some "node1", some "vdc,vdc"⟩)] =
        Except.ok [("node1", [("vdc", [1, 1])])] := by
  refine ⟨?_, ?_, ?_, ?_⟩
  · intro feed m h d hok
    exact mapAt_get_device_osd_map feed m hok h d
  · rfl
  · rfl
  · rfl

/-- Witness for C5: the characterization applied to the spec's example
feed at `("node1", "vdc")`. -/
theorem device_osd_map_insertion_order_witness :
    get_device_osd_map
        [("0", ⟨some "node1", some "nvme0n1,vdc"⟩),
         ("1", ⟨some "node1", some "vdb"⟩),
         ("2", ⟨some "node2", some "vdc"⟩)] =
      Except.ok
        [("node1", [("nvme0n1", [0]), ("vdc", [0]), ("vdb", [1])]),
         ("node2", [("vdc", [2])])] ∧
      mapAt
          [("node1", [("nvme0n1", [0]), ("vdc", [0]), ("vdb", [1])]),
           ("node2", [("vdc", [2])])] "node1" "vdc" =
        ownedIds
          [("0", ⟨some "node1", some "nvme0n1,vdc"⟩),
           ("1", ⟨some "node1", some "vdb"⟩),
           ("2", ⟨some "node2", some "vdc"⟩)] "node1" "vdc" :=
  ⟨rfl,
    device_osd_map_insertion_order.1
      [("0", ⟨some "node1", some "nvme0n1,vdc"⟩),
       ("1", ⟨some "node1", some "vdb"⟩),
       ("2", ⟨some "node2", some "vdc"⟩)]
      [("node1", [("nvme0n1", [0]), ("vdc", [0]), ("vdb", [1])]),
       ("node2", [("vdc", [2])])]
      "node1" "vdc" rfl⟩

/-- C6 counterexample: the lists `get_device_osd_map` builds follow the
feed's iteration order and token multiplicity, so a feed whose keys are
not in ascending order — or one record with a repeated device token —
produces a list that is neither sorted nor duplicate-free: this feed
yields `[1, 0, 0]` at `("node1", "vdc")`. -/
theorem device_osd_map_unsorted_cex :
    get_device_osd_map
        [("1", ⟨some "node1", some "vdc"⟩),
         ("0", ⟨some "node1", some "vdc,vdc"⟩)] =
      Except.ok [("node1", [("vdc", [1, 0, 0])])] ∧
      ¬ ([1, 0, 0] : List ℤ).Sorted (· ≤ ·) ∧
      ¬ ([1, 0, 0] : List ℤ).Nodup := by
  refine ⟨rfl, ?_, ?_⟩ <;> decide

/-- C6 (amended): the list at every `(hostname, device)` pair of the map
`get_device_osd_map` returns is in feed insertion order, so it is sorted
ascending and duplicate-free provided the feed's keys parse to strictly
ascending integers and no record repeats a device token; sorting
regardless of feed order only happens later, in the inventory merge's
`sorted(...)`. -/
theorem device_osd_map_sorted_of_ascending_feed (feed : OsdMetadataFeed)
    (m : OwnershipMap) (hok : get_device_osd_map feed = Except.ok m)
    (hkeys : (feed.map (fun p => (pyParseInt p.1).getD 0)).Pairwise (· < ·))
    (htoks : ∀ q ∈ feed, (splitOnChar (q.2.devices.getD "") ',').Nodup)
    (h d : String) :
    (mapAt m h d).Sorted (· ≤ ·) ∧ (mapAt m h d).Nodup := by
  rw [mapAt_get_device_osd_map feed m hok h d]
  have hlt : (ownedIds feed h d).Pairwise (· < ·) :=
    List.Pairwise.sublist (ownedIds_sublist_keys feed h d htoks) hkeys
  exact ⟨hlt.imp le_of_lt, hlt.imp ne_of_lt⟩

/-- Witness for the amended C6: the spec's example feed has ascending keys
and duplicate-free tokens, and the list at `("node1", "vdc")` of the map
built from it is sorted and duplicate-free. -/
theorem device_osd_map_sorted_of_ascending_feed_witness :
    get_device_osd_map
        [("0", ⟨some "node1", some "nvme0n1,vdc"⟩),
         ("1", ⟨some "node1", some "vdb"⟩),
         ("2", ⟨some "node2", some "vdc"⟩)] =
      Except.ok
        [("node1", [("nvme0n1", [0]), ("vdc", [0]), ("vdb", [1])]),
         ("node2", [("vdc", [2])])] ∧
      (mapAt
          [("node1", [("nvme0n1", [0]), ("vdc", [0]), ("vdb", [1])]),
           ("node2", [("vdc", [2])])] "node1" "vdc").Sorted (· ≤ ·) ∧
      (mapAt
          [("node1", [("nvme0n1", [0]), ("vdc", [0]), ("vdb", [1])]),
           ("node2", [("vdc", [2])])] "node1" "vdc").Nodup :=
  ⟨rfl,
    device_osd_map_sorted_of_ascending_feed
      [("0", ⟨some "node1", some "nvme0n1,vdc"⟩),
       ("1", ⟨some "node1", some "vdb"⟩),
       ("2", ⟨some "node2", some "vdc"⟩)]
      [("node1", [("nvme0n1", [0]), ("vdc", [0]), ("vdb", [1])]),
       ("node2", [("vdc", [2])])]
      rfl (by decide) (by decide) "node1" "vdc"⟩

/-- C2: every device of every node of the merged inventory receives an
`osd_ids` list that is sorted ascending and whose members are exactly the
OSD ids whose metadata recorded that device's path under that node's
hostname. -/
theorem merged_osd_ids_sorted_exact (feed : OsdMetadataFeed) (m : OwnershipMap)
    (nodes : List InvNode) (node' : InvNode) (d' : InvDevice)
    (hok : get_device_osd_map feed = Except.ok m)
    (hn : node' ∈ merge_into_inventory nodes m)
    (hd : d' ∈ node'.devices) :
    ∃ ids, d'.osd_ids = some ids ∧ ids.Sorted (· ≤ ·) ∧
      ∀ a : ℤ, a ∈ ids ↔ recordsDevice feed node'.name d'.path a := by
  rw [merge_into_inventory] at hn
  obtain ⟨node, hnode, rfl⟩ := List.mem_map.mp hn
  obtain ⟨d, hdev, rfl⟩ := List.mem_map.mp hd
  obtain ⟨hosd, hpath, hextra⟩ := annotateDevice_fields m node.name d
  refine ⟨sortedInts (mapAt m node.name d.path), hosd, sortedInts_sorted _, ?_⟩
  intro a
  rw [mem_sortedInts, mapAt_get_device_osd_map feed m hok,
    mem_ownedIds feed m hok]
  show recordsDevice feed node.name d.path a ↔ _
  rw [hpath]

/-- Witness for C2: a device recorded by OSDs 0 and 1 under its hostname
receives `osd_ids = [0, 1]` in the merged inventory. -/
theorem merged_osd_ids_sorted_exact_witness :
    get_device_osd_map
        [("0", ⟨some "node1", some "vdc"⟩), ("1", ⟨some "node1", some "vdc"⟩)] =
      Except.ok [("node1", [("vdc", [0, 1])])] ∧
      (⟨"node1", [⟨"vdc", some [0, 1], []⟩], []⟩ : InvNode) ∈
        merge_into_inventory [⟨"node1", [⟨"vdc", none, []⟩], []⟩]
          [("node1", [("vdc", [0, 1])])] ∧
      (⟨"vdc", some [0, 1], []⟩ : InvDevice) ∈
        (⟨"node1", [⟨"vdc", some [0, 1], []⟩], []⟩ : InvNode).devices ∧
      ∃ ids, (⟨"vdc", some [0, 1], []⟩ : InvDevice).osd_ids = some ids ∧
        ids.Sorted (· ≤ ·) ∧
        ∀ a : ℤ, a ∈ ids ↔
          recordsDevice
            [("0", ⟨some "node1", some "vdc"⟩), ("1", ⟨some "node1", some "vdc"⟩)]
            (⟨"node1", [⟨"vdc", some [0, 1], []⟩], []⟩ : InvNode).name
            (⟨"vdc", some [0, 1], []⟩ : InvDevice).path a :=
  ⟨rfl, by decide, by decide,
    merged_osd_ids_sorted_exact
      [("0", ⟨some "node1", some "vdc"⟩), ("1", ⟨some "node1", some "vdc"⟩)]
      [("node1", [("vdc", [0, 1])])]
      [⟨"node1", [⟨"vdc", none, []⟩], []⟩]
      ⟨"node1", [⟨"vdc", some [0, 1], []⟩], []⟩
      ⟨"vdc", some [0, 1], []⟩
      rfl (by decide) (by decide)⟩

/-- C3: in the merged inventory a device receives `osd_ids = []` both
when its node's hostname is absent from the ownership map and when the
hostname is present but the device's path was never recorded under it. -/
theorem merged_osd_ids_default_empty (nodes : List InvNode) (m : OwnershipMap)
    (node' : InvNode) (d' : InvDevice)
    (hn : node' ∈ merge_into_inventory nodes m) (hd : d' ∈ node'.devices) :
    (alookup m node'.name = none → d'.osd_ids = some []) ∧
      ∀ dm, alookup m node'.name = some dm → alookup dm d'.path = none →
        d'.osd_ids = some [] := by
  rw [merge_into_inventory] at hn
  obtain ⟨node, hnode, rfl⟩ := List.mem_map.mp hn
  obtain ⟨d, hdev, rfl⟩ := List.mem_map.mp hd
  obtain ⟨hosd, hpath, hextra⟩ := annotateDevice_fields m node.name d
  constructor
  · intro hnone
    have hnone' : alookup m node.name = none := hnone
    show (annotateDevice (alookup m node.name) d).osd_ids = some []
    rw [hosd, mapAt, hnone']
    rfl
  · intro dm hsome hpathnone
    rw [hpath] at hpathnone
    have hsome' : alookup m node.name = some dm := hsome
    show (annotateDevice (alookup m node.name) d).osd_ids = some []
    rw [hosd, mapAt, hsome', Option.getD_some, hpathnone]
    rfl

/-- Witness for C3: with an ownership map knowing only `node1/vdc`, a
device on the unknown host `node2` and an unrecorded device `vdz` on
`node1` both receive `osd_ids = []`. -/
theorem merged_osd_ids_default_empty_witness :
    ((⟨"node2", [⟨"vda", some [], []⟩], []⟩ : InvNode) ∈
        merge_into_inventory
          [⟨"node2", [⟨"vda", none, []⟩], []⟩, ⟨"node1", [⟨"vdz", none, []⟩], []⟩]
          [("node1", [("vdc", [0])])] ∧
      (⟨"vda", some [], []⟩ : InvDevice) ∈
        (⟨"node2", [⟨"vda", some [], []⟩], []⟩ : InvNode).devices ∧
      ((alookup ([("node1", [("vdc", [0])])] : OwnershipMap)
            (⟨"node2", [⟨"vda", some [], []⟩], []⟩ : InvNode).name = none →
          (⟨"vda", some [], []⟩ : InvDevice).osd_ids = some []) ∧
        ∀ dm, alookup ([("node1", [("vdc", [0])])] : OwnershipMap)
            (⟨"node2", [⟨"vda", some [], []⟩], []⟩ : InvNode).name = some dm →
          alookup dm (⟨"vda", some [], []⟩ : InvDevice).path = none →
          (⟨"vda", some [], []⟩ : InvDevice).osd_ids = some [])) ∧
      ((⟨"node1", [⟨"vdz", some [], []⟩], []⟩ : InvNode) ∈
        merge_into_inventory
          [⟨"node2", [⟨"vda", none, []⟩], []⟩, ⟨"node1", [⟨"vdz", none, []⟩], []⟩]
          [("node1", [("vdc", [0])])] ∧
      (⟨"vdz", some [], []⟩ : InvDevice) ∈
        (⟨"node1", [⟨"vdz", some [], []⟩], []⟩ : InvNode).devices ∧
      ((alookup ([("node1", [("vdc", [0])])] : OwnershipMap)
            (⟨"node1", [⟨"vdz", some [], []⟩], []⟩ : InvNode).name = none →
          (⟨"vdz", some [], []⟩ : InvDevice).osd_ids = some []) ∧
        ∀ dm, alookup ([("node1", [("vdc", [0])])] : OwnershipMap)
            (⟨"node1", [⟨"vdz", some [], []⟩], []⟩ : InvNode).name = some dm →
          alookup dm (⟨"vdz", some [], []⟩ : InvDevice).path = none →
          (⟨"vdz", some [], []⟩ : InvDevice).osd_ids = some [])) :=
  ⟨⟨by decide, by decide,
      merged_osd_ids_default_empty
        [⟨"node2", [⟨"vda", none, []⟩], []⟩, ⟨"node1", [⟨"vdz", none, []⟩], []⟩]
        [("node1", [("vdc", [0])])]
        ⟨"node2", [⟨"vda", some [], []⟩], []⟩ ⟨"vda", some [], []⟩
        (by decide) (by decide)⟩,
    ⟨by decide, by decide,
      merged_osd_ids_default_empty
        [⟨"node2", [⟨"vda", none, []⟩], []⟩, ⟨"node1", [⟨"vdz", none, []⟩], []⟩]
        [("node1", [("vdc", [0])])]
        ⟨"node1", [⟨"vdz", some [], []⟩], []⟩ ⟨"vdz", some [], []⟩
        (by decide) (by decide)⟩⟩

/-- C9: the merge writes `osd_ids` into every device record and changes
nothing else: node names, node extras, device paths and device extras are
those of the input, and every device of the output carries some
`osd_ids` list.  (The embedding is a total function: the merge performs
no I/O and no code path of lines 112-118 raises.) -/
theorem merge_preserves_all_but_osd_ids (nodes : List InvNode) (m : OwnershipMap) :
    (merge_into_inventory nodes m).map (fun n => n.name) =
        nodes.map (fun n => n.name) ∧
      (merge_into_inventory nodes m).map (fun n => n.extra) =
        nodes.map (fun n => n.extra) ∧
      (merge_into_inventory nodes m).map (fun n => n.devices.map (fun d => d.path)) =
        nodes.map (fun n => n.devices.map (fun d => d.path)) ∧
      (merge_into_inventory nodes m).map (fun n => n.devices.map (fun d => d.extra)) =
        nodes.map (fun n => n.devices.map (fun d => d.extra)) ∧
      ∀ node' ∈ merge_into_inventory nodes m, ∀ d' ∈ node'.devices,
        ∃ ids, d'.osd_ids = some ids := by
  refine ⟨?_, ?_, ?_, ?_, ?_⟩
  · rw [merge_into_inventory, List.map_map]
    rfl
  · rw [merge_into_inventory, List.map_map]
    rfl
  · rw [merge_into_inventory, List.map_map]
    apply List.map_congr_left
    intro n _
    show (n.devices.map (annotateDevice (alookup m n.name))).map (fun d => d.path) = _
    rw [List.map_map]
    apply List.map_congr_left
    intro d _
    exact (annotateDevice_fields m n.name d).2.1
  · rw [merge_into_inventory, List.map_map]
    apply List.map_congr_left
    intro n _
    show (n.devices.map (annotateDevice (alookup m n.name))).map (fun d => d.extra) = _
    rw [List.map_map]
    apply List.map_congr_left
    intro d _
    exact (annotateDevice_fields m n.name d).2.2
  · intro node' hn d' hd
    rw [merge_into_inventory] at hn
    obtain ⟨node, hnode, rfl⟩ := List.mem_map.mp hn
    obtain ⟨d, hdev, rfl⟩ := List.mem_map.mp hd
    exact ⟨_, (annotateDevice_fields m node.name d).1⟩

/-- Witness for C9 on a concrete inventory and map. -/
theorem merge_preserves_all_but_osd_ids_witness :
    ((merge_into_inventory [⟨"node1", [⟨"vdc", none, [("size", "1")]⟩], [("addr", "x")]⟩]
          [("node1", [("vdc", [0])])]).map (fun n => n.name) =
        ([⟨"node1", [⟨"vdc", none, [("size", "1")]⟩], [("addr", "x")]⟩] :
            List InvNode).map (fun n => n.name) ∧
      (merge_into_inventory [⟨"node1", [⟨"vdc", none, [("size", "1")]⟩], [("addr", "x")]⟩]
          [("node1", [("vdc", [0])])]).map
          (fun n => n.devices.map (fun d => d.path)) =
        ([⟨"node1", [⟨"vdc", none, [("size", "1")]⟩], [("addr", "x")]⟩] :
            List InvNode).map (fun n => n.devices.map (fun d => d.path))) ∧
      (⟨"node1", [⟨"vdc", some [0], [("size", "1")]⟩], [("addr", "x")]⟩ : InvNode) ∈
        merge_into_inventory [⟨"node1", [⟨"vdc", none, [("size", "1")]⟩], [("addr", "x")]⟩]
          [("node1", [("vdc", [0])])] ∧
      ∃ ids, (⟨"vdc", some [0], [("size", "1")]⟩ : InvDevice).osd_ids = some ids :=
  ⟨⟨(merge_preserves_all_but_osd_ids
        [⟨"node1", [⟨"vdc", none, [("size", "1")]⟩], [("addr", "x")]⟩]
        [("node1", [("vdc", [0])])]).1,
      (merge_preserves_all_but_osd_ids
        [⟨"node1", [⟨"vdc", none, [("size", "1")]⟩], [("addr", "x")]⟩]
        [("node1", [("vdc", [0])])]).2.2.1⟩,
    by decide,
    (merge_preserves_all_but_osd_ids
        [⟨"node1", [⟨"vdc", none, [("size", "1")]⟩], [("addr", "x")]⟩]
        [("node1", [("vdc", [0])])]).2.2.2.2
      ⟨"node1", [⟨"vdc", some [0], [("size", "1")]⟩], [("addr", "x")]⟩
      (by decide)
      ⟨"vdc", some [0], [("size", "1")]⟩
      (by decide)⟩

end CephDashOrch
